import Mathlib

/-!
Shallow embedding of the scoring and recommendation engine of `src/app.py`
(the Medicare STAR Rating Simulator dashboard).

Python dicts preserve insertion order, so a `MetricValueSet` (a dict from
metric display name to current value) is embedded as an association list
`List (String × ℚ)` in catalog order.  Metric values are embedded as exact
rationals: every numeric literal of the program (1.0, 2.0, 3.0, 3.2, 4.0,
5.0) is exactly representable and the arithmetic of `calculate_star_score`
(sum, subtraction, one division, min/max) is exact on such inputs.
Python's `ZeroDivisionError` is embedded by returning `none`.
-/

/-- The static nested catalog `categorized_kpis` of `src/app.py` (lines 34-67):
domain → subgroup → (metric display name, description), in source order. -/
def categorized_kpis : List (String × List (String × List (String × String))) :=
  [ ("Part D Measures",
      [ ("Medication Adherence",
          [ ("Medication Adherence - Diabetes",
              "Percentage of members with diabetes who adhere to their medication regimen."),
            ("Medication Adherence - Hypertension",
              "Percentage of members with high blood pressure who take their meds as prescribed."),
            ("Medication Adherence - Cholesterol",
              "Statin adherence among members with cardiovascular risk.") ]),
        ("High-Risk Medication Use",
          [ ("Use of High-Risk Medications in the Elderly",
              "Minimizing risky medications prescribed to older adults.") ]),
        ("MTM Program Completion Rate",
          [ ("MTM Program Completion Rate for CMR",
              "Percent of members who completed a Comprehensive Medication Review.") ]) ]),
    ("Member Experience (CAHPS)",
      [ ("Access and Service",
          [ ("Getting Needed Care",
              "Members' ease of getting appointments and services."),
            ("Getting Appointments and Care Quickly",
              "Timeliness of access to care.") ]),
        ("Customer Service",
          [ ("Customer Service Rating",
              "Satisfaction with plan's customer service interactions.") ]) ]),
    ("Member Complaints and Improvement",
      [ ("Complaints and Disenrollment",
          [ ("Members Choosing to Leave the Plan",
              "Rate at which members voluntarily leave the plan."),
            ("Complaints About the Health Plan",
              "Number of complaints filed about the plan.") ]),
        ("Appeals",
          [ ("Timeliness of Appeals Decisions",
              "Time taken to resolve member appeals."),
            ("Plan Makes Timely Decisions About Appeals",
              "Adherence to decision timelines.") ]) ]) ]

/-- All metric display names of the catalog, in the order the triple loop of
`baseline_kpis` (lines 72-74) visits them. -/
def catalogNames : List String :=
  categorized_kpis.flatMap fun dom =>
    dom.2.flatMap fun sub =>
      sub.2.map fun item => item.1

/-- Python's substring test `needle in haystack`, on character lists:
true iff `needle` occurs contiguously in the list. -/
def charsContain (needle : List Char) : List Char → Bool
  | [] => needle.isEmpty
  | c :: cs => needle.isPrefixOf (c :: cs) || charsContain needle cs

/-- Python's `needle in haystack` for strings (case-sensitive substring). -/
def strContains (haystack needle : String) : Bool :=
  charsContain needle.toList haystack.toList

/-- The value assigned to one metric name: the body of the inner loop of
`baseline_kpis` in `src/app.py` (lines 75-82), a first-match-wins chain of
case-sensitive substring tests.  The source's float literals 1.0, 3.0, 4.0,
2.0 are the exact rationals 1, 3, 4, 2. -/
def baselineValue (kpi : String) : ℚ :=
  if strContains kpi "Complaints" || strContains kpi "Problems" then 1
  else if strContains kpi "Rating" || strContains kpi "Adherence" then 3
  else if strContains kpi "Accuracy" || strContains kpi "Timeliness" then 4
  else 2

/-- `baseline_kpis()` of `src/app.py` (lines 70-83): the flat dict mapping every
catalog metric name to its heuristic baseline value, in catalog order
(catalog names are distinct, so the dict is this association list). -/
def baseline_kpis : List (String × ℚ) :=
  catalogNames.map fun kpi => (kpi, baselineValue kpi)

/-- `kpi_recommendations` of `src/app.py` (lines 86-92): the static advisory
table, keyed by exact metric display name. -/
def kpi_recommendations : List (String × String) :=
  [ ("Medication Adherence - Diabetes",
      "Invest in pharmacy outreach and digital refill reminders to improve medication adherence."),
    ("Customer Service Rating",
      "Enhance call center training and reduce wait times to improve member satisfaction."),
    ("Timeliness of Appeals Decisions",
      "Automate case handling workflows to accelerate resolution and ensure compliance."),
    ("Plan Makes Timely Decisions About Appeals",
      "Implement SLA dashboards and audit queues to reduce delays in decisions."),
    ("Getting Appointments and Care Quickly",
      "Expand provider network or offer telehealth to improve timely access.") ]

/-- `BASE_SCORE = 3.2` of `src/app.py` line 95 (exactly 16/5 as a rational). -/
def BASE_SCORE : ℚ := 3.2

/-- `calculate_star_score` of `src/app.py` (lines 97-104).  When `n = 0` the
division `(total - min_sum) / (max_sum - min_sum)` raises `ZeroDivisionError`
in Python; that fault is embedded as `none`, and the normal return as `some`. -/
def calculate_star_score (kpis : List (String × ℚ)) : Option ℚ :=
  let total := (kpis.map Prod.snd).sum
  let n : ℚ := kpis.length
  let min_sum := n * 1
  let max_sum := n * 5
  if max_sum - min_sum = 0 then none
  else
    let clamped := max 0 (min 1 ((total - min_sum) / (max_sum - min_sum)))
    some (BASE_SCORE + clamped * (5 - BASE_SCORE))

/-- The fallback advice string of `src/app.py` line 114. -/
def genericAdvice : String := "Focus operational improvements on this area."

/-- Python's `str` of a float with integral value (`2.0` prints as "2.0"); the
slider values the program renders are all integral.  A non-integral rational is
rendered as `num/den`, standing in for Python's decimal float repr, which no
claim evaluates. -/
def formatVal (v : ℚ) : String :=
  if v.den = 1 then toString v.num ++ ".0"
  else toString v.num ++ "/" ++ toString v.den

/-- One output line of `generate_recommendations` (line 115 of `src/app.py`):
the f-string embedding the metric name, its value and the advice text. -/
def recLine (kpi : String) (v : ℚ) (advice : String) : String :=
  "📉 \"" ++ kpi ++ "\" (score: " ++ formatVal v ++ ") – " ++ advice

/-- The sort key of `sorted(..., key=lambda kv: kv[1])`: compare pairs by their
value component only. -/
def byValue : String × ℚ → String × ℚ → Prop := fun a b => a.2 ≤ b.2

instance : DecidableRel byValue :=
  fun a b => inferInstanceAs (Decidable (a.2 ≤ b.2))

instance : IsTotal (String × ℚ) byValue :=
  ⟨fun a b => le_total a.2 b.2⟩

instance : IsTrans (String × ℚ) byValue :=
  ⟨fun _ _ _ h h2 => le_trans h h2⟩

/-- The `low` list of `generate_recommendations` (lines 108-111): metrics with
value < 3.0, sorted ascending by value, first five kept.  Python's `sorted` is
stable, and `List.insertionSort` computes the same stable sort.  The source's
threshold literal 3.0 is the exact rational 3. -/
def lowSorted (kpis : List (String × ℚ)) : List (String × ℚ) :=
  (List.insertionSort byValue (kpis.filter fun kv => kv.2 < 3)).take 5

/-- `kpi_recommendations.get(kpi, "Focus operational improvements on this area.")`
of line 114: advisory lookup by exact metric name with generic fallback. -/
def advisoryFor (kpi : String) : String :=
  (kpi_recommendations.lookup kpi).getD genericAdvice

/-- `generate_recommendations` of `src/app.py` (lines 107-116). -/
def generate_recommendations (kpis : List (String × ℚ)) : List String :=
  (lowSorted kpis).map fun kv => recLine kv.1 kv.2 (advisoryFor kv.1)

/-- The state-transformer reading of calling `calculate_star_score(kpis)`: the
Python body only reads `kpis` (`sum`, `len`) and assigns locals, so the call
returns its result and leaves the caller's dict unchanged. -/
def scoreCall (kpis : List (String × ℚ)) : Option ℚ × List (String × ℚ) :=
  (calculate_star_score kpis, kpis)

/-- The state-transformer reading of calling `generate_recommendations(kpis)`:
the body only iterates `kpis.items()` and builds fresh lists, so the call
returns its result and leaves the caller's dict unchanged. -/
def recommendCall (kpis : List (String × ℚ)) : List String × List (String × ℚ) :=
  (generate_recommendations kpis, kpis)

/-- The MetricValueSet of the C7 scenario: every catalog metric at 3.0 except
"Medication Adherence - Diabetes" at 2.0 (so exactly one metric is below 3.0). -/
def adherenceScenario : List (String × ℚ) :=
  catalogNames.map fun k =>
    (k, if k = "Medication Adherence - Diabetes" then 2 else 3)

/-- The sum of the value column after every value is overwritten with `c`. -/
theorem sum_map_const_snd (l : List (String × ℚ)) (c : ℚ) :
    ((l.map fun kv => (kv.1, c)).map Prod.snd).sum = l.length * c := by
  induction l with
  | nil => simp
  | cons a l ih =>
    simp only [List.map_cons, List.sum_cons, ih, List.length_cons]
    push_cast
    ring

/-- `calculate_star_score` on a non-empty set whose values all equal `c`:
the ratio collapses to `(c - 1) / 4` before clamping. -/
theorem score_of_const (kpis : List (String × ℚ)) (c : ℚ) (h : kpis ≠ []) :
    calculate_star_score (kpis.map fun kv => (kv.1, c)) =
      some (BASE_SCORE + max 0 (min 1 ((c - 1) / 4)) * (5 - BASE_SCORE)) := by
  have hn : (0:ℚ) < kpis.length := by exact_mod_cast List.length_pos.mpr h
  have hd : (kpis.length : ℚ) * 5 - (kpis.length : ℚ) * 1 ≠ 0 := by nlinarith
  have hratio : ((kpis.length : ℚ) * c - (kpis.length : ℚ) * 1) /
      ((kpis.length : ℚ) * 5 - (kpis.length : ℚ) * 1) = (c - 1) / 4 := by
    rw [div_eq_div_iff (by nlinarith) (by norm_num)]
    ring
  simp only [calculate_star_score, sum_map_const_snd, List.length_map, hratio]
  rw [if_neg hd]

/-- C1: for every non-empty MetricValueSet — whether or not the values lie in
[1, 5], thanks to the ratio clamp — `calculate_star_score` returns a value, and
that value lies in the closed interval [BASE_SCORE, 5] = [3.2, 5]. -/
theorem star_score_bounded (kpis : List (String × ℚ)) (h : kpis ≠ []) :
    (calculate_star_score kpis).isSome = true ∧
    BASE_SCORE ≤ (calculate_star_score kpis).getD BASE_SCORE ∧
    (calculate_star_score kpis).getD BASE_SCORE ≤ 5 := by
  have hn : (0:ℚ) < kpis.length := by exact_mod_cast List.length_pos.mpr h
  have hd : (kpis.length : ℚ) * 5 - (kpis.length : ℚ) * 1 ≠ 0 := by nlinarith
  simp only [calculate_star_score, if_neg hd]
  set t := ((kpis.map Prod.snd).sum - (kpis.length : ℚ) * 1) /
    ((kpis.length : ℚ) * 5 - (kpis.length : ℚ) * 1) with ht
  have hr0 : (0:ℚ) ≤ max 0 (min 1 t) := le_max_left 0 _
  have hr1 : max 0 (min 1 t) ≤ 1 := max_le (by norm_num) (min_le_left 1 t)
  have hB : BASE_SCORE = 3.2 := rfl
  refine ⟨rfl, ?_, ?_⟩
  · simp only [Option.getD_some]
    nlinarith [hr0, hr1, hB]
  · simp only [Option.getD_some]
    rw [hB]
    nlinarith [hr0, hr1]

/-- C1 witness: the bounds instantiated at the one-metric set `{"x": 3.0}`. -/
theorem star_score_bounded_witness :
    (calculate_star_score [("x", (3:ℚ))]).isSome = true ∧
    BASE_SCORE ≤ (calculate_star_score [("x", (3:ℚ))]).getD BASE_SCORE ∧
    (calculate_star_score [("x", (3:ℚ))]).getD BASE_SCORE ≤ 5 :=
  star_score_bounded [("x", 3)] (by decide)

/-- C2: on the empty MetricValueSet the division of `calculate_star_score` is
unguarded — the Python code raises `ZeroDivisionError` (embedded as `none`)
instead of returning the defined default `BASE_SCORE`. -/
theorem star_score_empty_fault : calculate_star_score [] = none := by
  simp [calculate_star_score]

/-- C3: `generate_recommendations` returns at most 5 lines, and every selected
entry is an entry of the input with value strictly below 3.0. -/
theorem recommend_at_most_five_low (kpis : List (String × ℚ)) :
    (generate_recommendations kpis).length ≤ 5 ∧
    ∀ kv ∈ lowSorted kpis, kv ∈ kpis ∧ kv.2 < 3 := by
  constructor
  · simp only [generate_recommendations, List.length_map, lowSorted]
    exact List.length_take_le 5 _
  · intro kv hkv
    have h1 : kv ∈ List.insertionSort byValue (kpis.filter fun kv => kv.2 < 3) :=
      List.mem_of_mem_take hkv
    have h2 : kv ∈ kpis.filter fun kv => kv.2 < 3 :=
      (List.mem_insertionSort byValue).mp h1
    have h3 := List.mem_filter.mp h2
    exact ⟨h3.1, by simpa using h3.2⟩

/-- C3 witness: instantiated at the one-metric set `{"a": 2.0}`, whose single
entry is selected. -/
theorem recommend_at_most_five_low_witness :
    (generate_recommendations [("a", (2:ℚ))]).length ≤ 5 ∧
    ((("a":String), (2:ℚ)) ∈ [(("a":String), (2:ℚ))] ∧ ((("a":String), (2:ℚ)).2 < 3)) :=
  ⟨(recommend_at_most_five_low [("a", 2)]).1,
   (recommend_at_most_five_low [("a", 2)]).2 ("a", 2) (by decide)⟩

/-- C4: the selected entries are sorted in non-decreasing order of value, and
for every value `v` the selected entries carrying `v` appear in their
catalog/insertion order (the sort is stable): they form a sublist of the
input's entries with value `v`. -/
theorem recommend_sorted_stable (kpis : List (String × ℚ)) (v : ℚ) :
    (lowSorted kpis).Sorted byValue ∧
    List.Sublist ((lowSorted kpis).filter fun kv => kv.2 = v)
      (kpis.filter fun kv => kv.2 = v) := by
  constructor
  · exact (List.sorted_insertionSort byValue _).sublist (List.take_sublist 5 _)
  · set F := kpis.filter fun kv => kv.2 < 3 with hF
    set c := F.filter fun kv => kv.2 = v with hc
    have hcp : c.Pairwise byValue := by
      apply List.pairwise_of_forall_mem_list
      intro a ha b hb
      have hav : a.2 = v := by simpa using (List.mem_filter.mp ha).2
      have hbv : b.2 = v := by simpa using (List.mem_filter.mp hb).2
      show a.2 ≤ b.2
      rw [hav, hbv]
    have h3 : List.Sublist c (List.insertionSort byValue F) :=
      List.sublist_insertionSort hcp (List.filter_sublist F)
    have h4 : c.filter (fun kv => kv.2 = v) = c := by
      rw [List.filter_eq_self]
      intro a ha
      simpa using (List.mem_filter.mp ha).2
    have h5 : List.Sublist c ((List.insertionSort byValue F).filter fun kv => kv.2 = v) := by
      have h := h3.filter fun kv => kv.2 = v
      rwa [h4] at h
    have h6 : ((List.insertionSort byValue F).filter fun kv => kv.2 = v).Perm c :=
      (List.perm_insertionSort byValue F).filter _
    have h7 : ((List.insertionSort byValue F).filter fun kv => kv.2 = v) = c :=
      (h5.eq_of_length h6.length_eq.symm).symm
    have h8 : List.Sublist ((lowSorted kpis).filter fun kv => kv.2 = v)
        ((List.insertionSort byValue F).filter fun kv => kv.2 = v) :=
      (List.take_sublist 5 _).filter _
    rw [h7] at h8
    exact h8.trans ((List.filter_sublist kpis).filter _)

/-- C5: the baseline assigns every catalog metric the value of the
first-match-wins substring rule chain, and the rule chain sends the four
representative names to 1.0, 3.0, 4.0 and 2.0 respectively. -/
theorem baseline_name_rules :
    (∀ kv ∈ baseline_kpis, kv.2 = baselineValue kv.1) ∧
    baselineValue "Complaints About the Health Plan" = 1 ∧
    baselineValue "Customer Service Rating" = 3 ∧
    baselineValue "Timeliness of Appeals Decisions" = 4 ∧
    (∀ kpi : String,
      strContains kpi "Complaints" = false → strContains kpi "Problems" = false →
      strContains kpi "Rating" = false → strContains kpi "Adherence" = false →
      strContains kpi "Accuracy" = false → strContains kpi "Timeliness" = false →
      baselineValue kpi = 2) := by
  refine ⟨?_, by decide, by decide, by decide, ?_⟩
  · intro kv hkv
    obtain ⟨k, hk, rfl⟩ := List.mem_map.mp hkv
    rfl
  · intro kpi h1 h2 h3 h4 h5 h6
    simp [baselineValue, h1, h2, h3, h4, h5, h6]

/-- C5 witness: the catalog entry "Medication Adherence - Diabetes" carries its
rule value, and "Getting Needed Care" matches no keyword rule so gets 2.0. -/
theorem baseline_name_rules_witness :
    ((("Medication Adherence - Diabetes":String), (3:ℚ)).2 =
      baselineValue (("Medication Adherence - Diabetes":String), (3:ℚ)).1) ∧
    baselineValue "Getting Needed Care" = 2 :=
  ⟨baseline_name_rules.1 ("Medication Adherence - Diabetes", 3) (by decide),
   baseline_name_rules.2.2.2.2 "Getting Needed Care"
     (by decide) (by decide) (by decide) (by decide) (by decide) (by decide)⟩

/-- C6: on a non-empty set, if every value is 1.0 the score is exactly
BASE_SCORE = 3.2; if every value is 5.0 it is exactly 5.0; if every value is
3.0 it is exactly 4.1 — all in exact rational arithmetic. -/
theorem star_score_uniform_values (kpis : List (String × ℚ)) (h : kpis ≠ []) :
    calculate_star_score (kpis.map fun kv => (kv.1, 1)) = some (3.2 : ℚ) ∧
    calculate_star_score (kpis.map fun kv => (kv.1, 5)) = some (5 : ℚ) ∧
    calculate_star_score (kpis.map fun kv => (kv.1, 3)) = some (4.1 : ℚ) := by
  refine ⟨?_, ?_, ?_⟩ <;> rw [score_of_const kpis _ h] <;> norm_num [BASE_SCORE]

/-- C6 witness: the three uniform-value scores at the one-metric set. -/
theorem star_score_uniform_values_witness :
    calculate_star_score ([(("x":String), (9:ℚ))].map fun kv => (kv.1, 1)) = some (3.2 : ℚ) ∧
    calculate_star_score ([(("x":String), (9:ℚ))].map fun kv => (kv.1, 5)) = some (5 : ℚ) ∧
    calculate_star_score ([(("x":String), (9:ℚ))].map fun kv => (kv.1, 3)) = some (4.1 : ℚ) :=
  star_score_uniform_values [("x", 9)] (by decide)

/-- C7: every selected metric contributes the line embedding its name, its
value and its advice, where the advice is the advisory-table entry under the
exact metric name when present and the generic fallback when absent; and on
the scenario with exactly "Medication Adherence - Diabetes" at 2.0 below the
threshold, the output is exactly the one line naming it, its value 2.0 and its
known advisory text. -/
theorem recommend_line_content :
    (∀ kpis : List (String × ℚ), ∀ kv ∈ lowSorted kpis,
      recLine kv.1 kv.2 (advisoryFor kv.1) ∈ generate_recommendations kpis ∧
      (∀ a, kpi_recommendations.lookup kv.1 = some a → advisoryFor kv.1 = a) ∧
      (kpi_recommendations.lookup kv.1 = none → advisoryFor kv.1 = genericAdvice)) ∧
    generate_recommendations adherenceScenario =
      ["📉 \"Medication Adherence - Diabetes\" (score: 2.0) – Invest in pharmacy outreach and digital refill reminders to improve medication adherence."] := by
  refine ⟨?_, by decide⟩
  intro kpis kv hkv
  refine ⟨?_, ?_, ?_⟩
  · simp only [generate_recommendations]
    exact List.mem_map.mpr ⟨kv, hkv, rfl⟩
  · intro a ha
    simp [advisoryFor, ha]
  · intro ha
    simp [advisoryFor, ha]

/-- C7 witness: in the scenario set, the selected metric
"Medication Adherence - Diabetes" contributes its formatted line. -/
theorem recommend_line_content_witness :
    recLine "Medication Adherence - Diabetes" (2:ℚ)
        (advisoryFor "Medication Adherence - Diabetes") ∈
      generate_recommendations adherenceScenario :=
  (recommend_line_content.1 adherenceScenario ("Medication Adherence - Diabetes", 2)
    (by decide)).1

/-- C8: the state-transformer reading of both calls returns the caller's
MetricValueSet unchanged — neither function mutates its argument. -/
theorem score_recommend_no_mutation (kpis : List (String × ℚ)) :
    (scoreCall kpis).2 = kpis ∧ (recommendCall kpis).2 = kpis :=
  ⟨rfl, rfl⟩

/-- C9: the score depends only on the multiset of values — permuting the
values among the metric names (or renaming metrics) leaves it unchanged. -/
theorem star_score_value_perm (kpis kpis2 : List (String × ℚ))
    (h : (kpis.map Prod.snd).Perm (kpis2.map Prod.snd)) :
    calculate_star_score kpis = calculate_star_score kpis2 := by
  have hl : kpis.length = kpis2.length := by
    have h2 := h.length_eq
    simpa using h2
  simp only [calculate_star_score, h.sum_eq, hl]

/-- C9 witness: swapping the two values between "a" and "b" keeps the score. -/
theorem star_score_value_perm_witness :
    calculate_star_score [("a", (1:ℚ)), ("b", (2:ℚ))] =
      calculate_star_score [("a", (2:ℚ)), ("b", (1:ℚ))] :=
  star_score_value_perm _ _ (by decide)

/-- C10: `generate_recommendations` returns exactly `min 5 k` lines where `k`
counts the metrics with value below 3.0; in particular it returns no lines
when every value is at least 3.0. -/
theorem recommend_count (kpis : List (String × ℚ)) :
    (generate_recommendations kpis).length = min 5 (kpis.filter fun kv => kv.2 < 3).length ∧
    ((∀ kv ∈ kpis, 3 ≤ kv.2) → generate_recommendations kpis = []) := by
  constructor
  · simp [generate_recommendations, lowSorted, List.length_take,
      List.length_insertionSort]
  · intro h3
    have hf : (kpis.filter fun kv => kv.2 < 3) = [] := by
      rw [List.filter_eq_nil_iff]
      intro a ha
      simpa using not_lt.mpr (h3 a ha)
    simp [generate_recommendations, lowSorted, hf]

/-- C10 witness: the counts at a two-metric set with one low value, and the
empty output at a one-metric set with a high value. -/
theorem recommend_count_witness :
    ((generate_recommendations [(("a":String), (2:ℚ)), (("b":String), (4:ℚ))]).length =
      min 5 ([(("a":String), (2:ℚ)), (("b":String), (4:ℚ))].filter fun kv => kv.2 < 3).length) ∧
    generate_recommendations [(("c":String), (4:ℚ))] = [] :=
  ⟨(recommend_count [("a", 2), ("b", 4)]).1,
   (recommend_count [("c", 4)]).2 (by decide)⟩
